import Mathlib

/-!
Verification of the ShiftIt release-automation script (`fabfile.py`).

The development shallowly embeds the script's logic: Python strings are Lean
`String`s, the process-wide decrypted-file state is threaded explicitly,
fallible operations return `Except`, and the pystache template renderer is
embedded as a small Mustache interpreter over parsed template trees.
-/

namespace ShiftIt

/-! ## Python string primitives used by the script -/

/-- Python `s.startswith(pre)`: `pre` is a prefix of `s`. -/
def startswith (s pre : String) : Bool := pre.data.isPrefixOf s.data

/-- Python `s.endswith(suf)`: `suf` is a suffix of `s`. -/
def endswith (s suf : String) : Bool := suf.data.isSuffixOf s.data

/-- Python `s.strip()`: remove leading and trailing whitespace. -/
def py_strip (s : String) : String :=
  String.mk ((s.data.dropWhile Char.isWhitespace).reverse.dropWhile Char.isWhitespace).reverse

/-- Python `s[n:]`: drop the first `n` characters. -/
def string_drop (s : String) (n : Nat) : String := String.mk (s.data.drop n)

/-- Substring test on character lists (Python's `in` on strings). -/
def contains_chars (needle : List Char) : List Char → Bool
  | [] => needle.isEmpty
  | c :: rest => needle.isPrefixOf (c :: rest) || contains_chars needle rest

/-- `contains_sub hay needle`: `needle` occurs as a contiguous substring of `hay`. -/
def contains_sub (hay needle : String) : Bool := contains_chars needle.data hay.data

/-! ## `DecryptedFiles.get_decrypted_key_path` (fabfile.py lines 7–43)

The script keeps a module-wide list `DecryptedFiles.tempfiles` of
`NamedTemporaryFile` handles.  We thread that process state explicitly:
temporary files are identified by consecutive ids drawn from `next_fd`, and
`gpg_calls` counts invocations of the external `gpg -d` tool.  The `gpg`
binding is either the real command or (when `sh`/gpg is unavailable) a stub
that raises `NotImplementedError` when called; `gpg_ok` models which one is
installed.  The fallible call returns `Except`. -/

structure DecState where
  tempfiles : List Nat
  next_fd : Nat
  gpg_calls : Nat
deriving DecidableEq

/-- Fresh-process state: `DecryptedFiles.tempfiles = []`. -/
def dec_init : DecState := ⟨[], 0, 0⟩

/-- The (unspecified but per-id distinct) name of a `NamedTemporaryFile`. -/
def temp_name (fd : Nat) : String := "/tmp/tmp" ++ toString fd

/-- Message raised by the stub `gpg` when `sh`/gpg is not installed (line 13). -/
def gpg_unavailable_msg : String :=
  "the sh module is not installed or gpg command not found; unable to use gpg-encrypted keys"

/-- `DecryptedFiles.get_decrypted_key_path(path)` (lines 19–43): a non-`.gpg`
path is returned unchanged; otherwise a fresh temporary file is created and
appended to `tempfiles`, `gpg -d path` is invoked (raising when gpg is
unavailable), and the temporary file's path is returned. -/
def get_decrypted_key_path (gpg_ok : Bool) (path : String) (s : DecState) :
    Except String (String × DecState) :=
  if endswith path ".gpg" = false then Except.ok (path, s)
  else
    let fh := s.next_fd
    let s' : DecState := ⟨s.tempfiles ++ [fh], fh + 1, s.gpg_calls⟩
    if gpg_ok then Except.ok (temp_name fh, { s' with gpg_calls := s'.gpg_calls + 1 })
    else Except.error gpg_unavailable_msg

/-! ## `_find` and `_get_milestone` (fabfile.py lines 172–188) -/

/-- `_find(f, seq)` (lines 172–177): first item of `seq` satisfying `f`, else `None`. -/
def _find {α : Type} (f : α → Bool) : List α → Option α
  | [] => none
  | x :: xs => if f x then some x else _find f xs

/-- A GitHub milestone as used by the script: a title and its number. -/
structure Milestone where
  title : String
  number : Nat
deriving DecidableEq

/-- `_get_milestone()` (lines 183–188): the first milestone whose title is a
prefix of `proj_version`, else `Exception('Unable to find milestone: …')`. -/
def _get_milestone (proj_version : String) (milestones : List Milestone) :
    Except String Milestone :=
  match _find (fun m => startswith proj_version m.title) milestones with
  | some milestone => Except.ok milestone
  | none => Except.error ("Unable to find milestone: " ++ proj_version)

/-! ## Issues and the Python stable sort (fabfile.py lines 200–201) -/

/-- A GitHub issue as consumed by the script. -/
structure Issue where
  number : Nat
  html_url : String
  title : String
  closed_at : Nat
deriving DecidableEq

/-- Insertion step of a stable ascending sort: the new element goes in front
of the first list element with a key not smaller than its own. -/
def sort_insert (key : Issue → Nat) (x : Issue) : List Issue → List Issue
  | [] => [x]
  | y :: ys => if key x ≤ key y then x :: y :: ys else y :: sort_insert key x ys

/-- Python `list.sort(key=…)`: a stable sort ascending by `key` (Python's
sort is documented stable; we embed it as stable insertion sort). -/
def py_sort (key : Issue → Nat) : List Issue → List Issue
  | [] => []
  | x :: xs => sort_insert key x (py_sort key xs)

/-- Line 200–201: the fetched closed issues, sorted by `closed_at`. -/
def closed_issues_sorted (fetched : List Issue) : List Issue :=
  py_sort (fun i => i.closed_at) fetched

/-! ## The pystache renderer

The script renders three fixed Mustache templates with `pystache.render`.
We embed the renderer on parsed template trees: literal text, a variable
tag, a section tag, and sequencing.  Context values are the ones the script
puts in its context dicts: strings, numbers, booleans and lists of
sub-contexts (issue objects, whose attribute lookup pystache performs). -/

inductive MVal : Type where
  | s : String → MVal
  | n : Nat → MVal
  | b : Bool → MVal
  | list : List (List (String × MVal)) → MVal

/-- A Mustache rendering context: an association list of keys to values. -/
abbrev Ctx := List (String × MVal)

inductive MTpl : Type where
  | text : String → MTpl
  | mvar : String → MTpl
  | sec : String → MTpl → MTpl
  | seq : MTpl → MTpl → MTpl
  | nil : MTpl

/-- Sequence a list of template nodes. -/
def tseq (l : List MTpl) : MTpl := l.foldr MTpl.seq MTpl.nil

def ctx_lookup : Ctx → String → Option MVal
  | [], _ => none
  | (k, v) :: rest, key => if k == key then some v else ctx_lookup rest key

/-- Mustache context-stack lookup: innermost frame first. -/
def stack_lookup : List Ctx → String → Option MVal
  | [], _ => none
  | c :: cs, key =>
    match ctx_lookup c key with
    | some v => some v
    | none => stack_lookup cs key

/-- How pystache interpolates a value at a `{{key}}` tag. -/
def mval_str : MVal → String
  | .s str => str
  | .n n => toString n
  | .b b => if b then "True" else "False"
  | .list _ => ""

/-- Mustache rendering: text is emitted verbatim, variables interpolate the
context-stack lookup (missing keys render empty), and sections render their
body zero times (falsy or missing value), once (truthy scalar), or once per
element of a list value with the element's context pushed. -/
def render (stack : List Ctx) : MTpl → String
  | .text t => t
  | .mvar key =>
    (match stack_lookup stack key with
     | some v => mval_str v
     | none => "")
  | .seq a b => render stack a ++ render stack b
  | .nil => ""
  | .sec key body =>
    match stack_lookup stack key with
    | some (.b true) => render stack body
    | some (.b false) => ""
    | some (.list items) =>
      items.foldr (fun item acc => render (item :: stack) body ++ acc) ""
    | some (.s str) => if str == "" then "" else render stack body
    | some (.n n) => if n == 0 then "" else render stack body
    | none => ""

/-- `pystache.render(template, context)` as called by the script. -/
def pystache_render (template : MTpl) (context : Ctx) : String :=
  render [context] template

/-! ## The three templates (fabfile.py lines 59–117)

Each template tree below is the parse of the corresponding Python string
literal (after its `.strip()`), with text chunks verbatim.  Tag-only lines
are kept as inline text, which fixes one concrete whitespace convention;
the claims below do not depend on Mustache standalone-line trimming. -/

/-- `release_notes_template_html` (lines 59–79). -/
def release_notes_template_html : MTpl := tseq [
  MTpl.text "<!DOCTYPE HTML PUBLIC \"-//IETF//DTD HTML//EN\">\n<html>\n    <body>\n        <h1>",
  MTpl.mvar "proj_name",
  MTpl.text " version ",
  MTpl.mvar "proj_version",
  MTpl.text "</h1>\n\n        ",
  MTpl.sec "has_issues" (tseq [
    MTpl.text "\n        <h2>Issues closed</h2>\n        <ul>\n        ",
    MTpl.sec "issues" (tseq [
      MTpl.text "\n            <li><a href=\"",
      MTpl.mvar "html_url",
      MTpl.text "\"><b>#",
      MTpl.mvar "number",
      MTpl.text "</b></a> - ",
      MTpl.mvar "title",
      MTpl.text "</li>\n        "]),
    MTpl.text "\n        </ul>\n        "]),
  MTpl.text "\n\n        More information about this release can be found on <a href=\"",
  MTpl.mvar "milestone_url",
  MTpl.text "\">github</a>.\n        <br/><br/>\n        If you find any bugs please report them on <a href=\"http://github.com/citadelgrad/ShiftIt/issues\">github</a>.\n    </body>\n</html>"]

/-- `release_notes_template_html` with the `has_issues` section omitted:
used to state that an issue-free render contains no trace of the section. -/
def release_notes_template_html_sans_issues : MTpl := tseq [
  MTpl.text "<!DOCTYPE HTML PUBLIC \"-//IETF//DTD HTML//EN\">\n<html>\n    <body>\n        <h1>",
  MTpl.mvar "proj_name",
  MTpl.text " version ",
  MTpl.mvar "proj_version",
  MTpl.text "</h1>\n\n        ",
  MTpl.text "\n\n        More information about this release can be found on <a href=\"",
  MTpl.mvar "milestone_url",
  MTpl.text "\">github</a>.\n        <br/><br/>\n        If you find any bugs please report them on <a href=\"http://github.com/citadelgrad/ShiftIt/issues\">github</a>.\n    </body>\n</html>"]

/-- `release_notes_template_md` (lines 81–92). -/
def release_notes_template_md : MTpl := tseq [
  MTpl.sec "has_issues" (tseq [
    MTpl.text "\n## Issues closed\n",
    MTpl.sec "issues" (tseq [
      MTpl.text "\n- [#",
      MTpl.mvar "number",
      MTpl.text "](",
      MTpl.mvar "html_url",
      MTpl.text ") - ",
      MTpl.mvar "title",
      MTpl.text "\n"]),
    MTpl.text "\n"]),
  MTpl.text "\n\nMore information about this release can be found on [github](",
  MTpl.mvar "milestone_url",
  MTpl.text ").\n\nIf you find any bugs please report them on [github](http://github.com/citadelgrad/ShiftIt/issues)."]

/-- `appcast_template` (lines 94–117). -/
def appcast_template : MTpl := tseq [
  MTpl.text "<?xml version=\"1.0\" encoding=\"utf-8\"?>\n<rss version=\"2.0\" xmlns:sparkle=\"http://www.andymatuschak.org/xml-namespaces/sparkle\" xmlns:dc=\"http://purl.org/dc/elements/1.1/\">\n   <channel>\n      <title>",
  MTpl.mvar "proj_name",
  MTpl.text " Changelog</title>\n      <link>",
  MTpl.mvar "proj_appcast_url",
  MTpl.text "</link>\n      <language>en</language>\n      <item>\n         <title>",
  MTpl.mvar "proj_name",
  MTpl.text " version ",
  MTpl.mvar "proj_version",
  MTpl.text "</title>\n         <sparkle:releaseNotesLink>\n            ",
  MTpl.mvar "proj_release_notes_url",
  MTpl.text "\n         </sparkle:releaseNotesLink>\n         <pubDate>",
  MTpl.mvar "date",
  MTpl.text "</pubDate>\n         <enclosure\n            url=\"",
  MTpl.mvar "download_url",
  MTpl.text "\"\n            sparkle:version=\"",
  MTpl.mvar "proj_version",
  MTpl.text "\"\n            length=\"",
  MTpl.mvar "download_size",
  MTpl.text "\"\n            type=\"application/octet-stream\"\n            sparkle:edSignature=\"",
  MTpl.mvar "download_signature",
  MTpl.text "\" />\n         <sparkle:minimumSystemVersion>14.6</sparkle:minimumSystemVersion>\n      </item>\n   </channel>\n</rss>"]

/-! ## Project settings (fabfile.py lines 48, 221–235) -/

/-- `proj_name = 'ShiftIt'` (line 48). -/
def proj_name : String := "ShiftIt"

/-- `proj_archive_name = proj_name + '-' + proj_version + '.zip'` (line 228),
with the globals `proj_name` and `proj_version` as parameters. -/
def proj_archive_name (pn pv : String) : String := pn ++ "-" ++ pv ++ ".zip"

/-- `proj_download_url` (line 231): the `'…/version-%s/%s' % (proj_version,
proj_archive_name)` format with the fixed GitHub base. -/
def proj_download_url (pn pv : String) : String :=
  "https://github.com/citadelgrad/ShiftIt/releases/download/version-" ++ pv ++ "/"
    ++ proj_archive_name pn pv

/-! ## `_gen_release_notes` (fabfile.py lines 190–211) -/

/-- The attributes pystache reads off a github3 issue object in the
templates (`number`, `html_url`, `title`). -/
def issue_attrs (i : Issue) : Ctx :=
  [("number", MVal.n i.number), ("html_url", MVal.s i.html_url), ("title", MVal.s i.title)]

/-- The `release_notes` context dict (lines 203–209), built from the sorted
closed issues of the resolved milestone. -/
def release_notes_data (proj_version : String) (milestone_number : Nat)
    (fetched_closed : List Issue) : Ctx :=
  let closed_issues := closed_issues_sorted fetched_closed
  [("has_issues", MVal.b (decide (closed_issues.length > 0))),
   ("issues", MVal.list (closed_issues.map issue_attrs)),
   ("proj_name", MVal.s proj_name),
   ("proj_version", MVal.s proj_version),
   ("milestone_url",
     MVal.s ("https://github.com/citadelgrad/ShiftIt/issues?milestone="
       ++ toString milestone_number))]

/-- `_gen_release_notes(template)` (lines 190–211), with the externally
fetched data (version, resolved milestone number, closed issues) as
parameters. -/
def _gen_release_notes (template : MTpl) (proj_version : String)
    (milestone_number : Nat) (fetched_closed : List Issue) : String :=
  pystache_render template (release_notes_data proj_version milestone_number fetched_closed)

/-! ## The `appcast` task's signing and feed rendering (fabfile.py lines 283–318) -/

/-- Result of an external command run through the `local` wrapper; with
`warn=True` (line 124) a non-zero exit does not raise. -/
structure CmdResult where
  return_code : Nat
  stdout : String
deriving DecidableEq

/-- `local(cmd, capture=True)` (lines 123–127): returns captured stdout,
whatever the exit status (the wrapper passes `warn=True`). -/
def local_capture (r : CmdResult) : String := r.stdout

/-- The externally obtained inputs of the `appcast` task: the SUFeedURL from
the plist, the version, the release-notes URL, the formatted date and the
archive's byte size. -/
structure AppcastRun where
  appcast_url : String
  version : String
  release_notes_url : String
  date : String
  download_size : Nat
deriving DecidableEq

/-- The `appcast` context dict (lines 306–315) with signature `sig`. -/
def appcast_data (run : AppcastRun) (sig : String) : Ctx :=
  [("proj_name", MVal.s proj_name),
   ("proj_appcast_url", MVal.s run.appcast_url),
   ("proj_version", MVal.s run.version),
   ("proj_release_notes_url", MVal.s run.release_notes_url),
   ("date", MVal.s run.date),
   ("download_url", MVal.s (proj_download_url proj_name run.version)),
   ("download_size", MVal.n run.download_size),
   ("download_signature", MVal.s sig)]

/-- Lines 302–318 of the `appcast` task: take the sign tool's captured
output, strip it, and render the feed document that is then written to
`proj_appcast_file`.  There is no check on the exit status or on the
signature being non-empty. -/
def appcast_feed (sign_result : CmdResult) (run : AppcastRun) : String :=
  let signature := py_strip (local_capture sign_result)
  pystache_render appcast_template (appcast_data run signature)

/-- A concrete `appcast` run used for closed-form evaluations. -/
def appcast_run_example : AppcastRun :=
  ⟨"https://raw.github.com/citadelgrad/ShiftIt/master/release/appcast.xml",
   "2.1.3",
   "http://htmlpreview.github.com/?https://raw.github.com/citadelgrad/ShiftIt/master/release/release-notes-2.1.3.html",
   "Tue, 01 Jul 2025 10:00:00 +0000",
   1024⟩

/-! ## The `release` task's pre-flight checks (fabfile.py lines 326–335) -/

/-- Line 327: `if not local('git diff-index --quiet HEAD --').return_code:`.
Python's `not` on the integer exit code is true exactly when the code is 0. -/
def release_warns_pending_changes (return_code : Nat) : Bool := return_code == 0

/-- Lines 326–335: the advisory warnings printed by `release` before it runs
`appcast`; the task always proceeds afterwards (both checks only `puts`). -/
def release_preflight (diff_index_return_code : Nat) (open_issues : List Issue) :
    List String :=
  (if release_warns_pending_changes diff_index_return_code then
    ["Warning: there are pending changes in the repository. Run git status"]
  else []) ++
  (if open_issues.length > 0 then
    "Warning: there are still open issues"
      :: open_issues.map (fun i => "\t * #" ++ toString i.number ++ ": " ++ i.title)
  else [])

/-! ## The `info` task (fabfile.py lines 248–256) -/

/-- The module's global bindings relevant to `info`, as (name, printed
value) pairs in their Python insertion order; environment- and
filesystem-derived values are parameters.  `proj_github_token` is the
plaintext token read from the (possibly decrypted) token file (line 235). -/
def module_globals (user repo token_file sign_tool cwd version token : String) :
    List (String × String) := [
  ("SHIFTIT_GITHUB_USER", user),
  ("SHIFTIT_GITHUB_REPO", repo),
  ("proj_name", proj_name),
  ("proj_info_plist", cwd ++ "/ShiftIt/ShiftIt-Info.plist"),
  ("proj_src_dir", cwd ++ "/ShiftIt"),
  ("proj_github_token_file", token_file),
  ("proj_sign_update_tool", sign_tool),
  ("proj_build_dir", cwd ++ "/build"),
  ("proj_app_dir", cwd ++ "/ShiftIt/build/Release/ShiftIt.app"),
  ("proj_public_key", cwd ++ "/ShiftIt/dsa_pub.pem"),
  ("proj_version", version),
  ("proj_archive_name", proj_archive_name proj_name version),
  ("proj_archive_path", cwd ++ "/build/" ++ proj_archive_name proj_name version),
  ("proj_download_url", proj_download_url proj_name version),
  ("proj_release_notes_url",
    "http://htmlpreview.github.com/?https://raw.github.com/citadelgrad/ShiftIt/master/release/release-notes-"
      ++ version ++ ".html"),
  ("proj_release_notes_html_file", cwd ++ "/release/release-notes-" ++ version ++ ".html"),
  ("proj_appcast_file", cwd ++ "/release/appcast.xml"),
  ("proj_github_token", token)]

/-- The `info` task (lines 248–256): one `"\t%s: %s" % (k[len('proj_'):], v)`
line per global whose name starts with `proj_`. -/
def info_lines (globals : List (String × String)) : List String :=
  (globals.filter (fun kv => startswith kv.1 "proj_")).map
    (fun kv => "\t" ++ string_drop kv.1 5 ++ ": " ++ kv.2)

set_option maxRecDepth 100000

/-! ## Lemmas about `_find` -/

theorem find_eq_some_spec {α : Type} {f : α → Bool} {l : List α} {x : α}
    (h : _find f l = some x) :
    f x = true ∧ ∃ l₁ l₂, l = l₁ ++ x :: l₂ ∧ ∀ y ∈ l₁, f y = false := by
  induction l with
  | nil => simp [_find] at h
  | cons a as ih =>
    by_cases hfa : f a = true
    · simp [_find, hfa] at h
      subst h
      exact ⟨hfa, [], as, rfl, by simp⟩
    · have hfa' : f a = false := by simpa using hfa
      simp [_find, hfa'] at h
      obtain ⟨hx, l₁, l₂, hl, hall⟩ := ih h
      refine ⟨hx, a :: l₁, l₂, by simp [hl], ?_⟩
      intro y hy
      rcases List.mem_cons.mp hy with rfl | hy'
      · exact hfa'
      · exact hall y hy'

theorem find_eq_none_spec {α : Type} {f : α → Bool} {l : List α}
    (h : ∀ y ∈ l, f y = false) : _find f l = none := by
  induction l with
  | nil => rfl
  | cons a as ih =>
    have ha : f a = false := h a (by simp)
    simp [_find, ha]
    exact ih (fun y hy => h y (by simp [hy]))

/-! ## Lemmas about the stable sort -/

theorem mem_sort_insert {key : Issue → Nat} {x z : Issue} {l : List Issue} :
    z ∈ sort_insert key x l ↔ z = x ∨ z ∈ l := by
  induction l with
  | nil => simp [sort_insert]
  | cons y ys ih =>
    simp only [sort_insert]
    split
    · simp [List.mem_cons]
    · simp [List.mem_cons, ih]
      tauto

theorem sorted_sort_insert {key : Issue → Nat} {x : Issue} {l : List Issue}
    (h : l.Pairwise (fun a b => key a ≤ key b)) :
    (sort_insert key x l).Pairwise (fun a b => key a ≤ key b) := by
  induction l with
  | nil => simp [sort_insert]
  | cons y ys ih =>
    obtain ⟨hhead, htail⟩ := List.pairwise_cons.mp h
    simp only [sort_insert]
    split
    next hxy =>
      refine List.Pairwise.cons ?_ h
      intro z hz
      rcases List.mem_cons.mp hz with rfl | hz'
      · exact hxy
      · exact le_trans hxy (hhead z hz')
    next hxy =>
      refine List.Pairwise.cons ?_ (ih htail)
      intro z hz
      rcases mem_sort_insert.mp hz with rfl | hz'
      · exact le_of_not_le hxy
      · exact hhead z hz'

theorem sorted_py_sort (key : Issue → Nat) (l : List Issue) :
    (py_sort key l).Pairwise (fun a b => key a ≤ key b) := by
  induction l with
  | nil => simp [py_sort]
  | cons x xs ih => exact sorted_sort_insert ih

theorem filter_sort_insert_of_eq {key : Issue → Nat} {x : Issue} {l : List Issue}
    {t : Nat} (hx : key x = t) :
    (sort_insert key x l).filter (fun i => key i == t) =
      x :: l.filter (fun i => key i == t) := by
  induction l with
  | nil => simp [sort_insert, List.filter_cons, hx]
  | cons y ys ih =>
    simp only [sort_insert]
    split
    next hxy => simp [List.filter_cons, hx]
    next hxy =>
      have hyt : (key y == t) = false := by
        subst hx
        simp only [beq_eq_false_iff_ne, ne_eq]
        omega
      simp [List.filter_cons, hyt, ih]

theorem filter_sort_insert_of_ne {key : Issue → Nat} {x : Issue} {l : List Issue}
    {t : Nat} (hx : key x ≠ t) :
    (sort_insert key x l).filter (fun i => key i == t) =
      l.filter (fun i => key i == t) := by
  induction l with
  | nil => simp [sort_insert, List.filter_cons, hx]
  | cons y ys ih =>
    simp only [sort_insert]
    split
    next hxy => simp [List.filter_cons, hx]
    next hxy => simp [List.filter_cons, ih]

theorem filter_py_sort (key : Issue → Nat) (l : List Issue) (t : Nat) :
    (py_sort key l).filter (fun i => key i == t) = l.filter (fun i => key i == t) := by
  induction l with
  | nil => rfl
  | cons x xs ih =>
    simp only [py_sort]
    by_cases hx : key x = t
    · rw [filter_sort_insert_of_eq hx, ih, List.filter_cons]
      simp [hx]
    · rw [filter_sort_insert_of_ne hx, ih, List.filter_cons]
      simp [hx]

/-! ## Claim theorems -/

/-- Claim C1: milestone resolution iterates the milestones in order and
returns the first one whose title is a string-prefix of the version; when no
milestone's title is a prefix it fails with the fatal `Unable to find
milestone` error that aborts the pipeline. -/
theorem milestone_resolution_first_match (v : String) (M : List Milestone) :
    (∀ m, _get_milestone v M = Except.ok m →
      startswith v m.title = true ∧
      ∃ l₁ l₂, M = l₁ ++ m :: l₂ ∧ ∀ m' ∈ l₁, startswith v m'.title = false) ∧
    ((∀ m ∈ M, startswith v m.title = false) →
      _get_milestone v M = Except.error ("Unable to find milestone: " ++ v)) := by
  constructor
  · intro m hm
    unfold _get_milestone at hm
    cases hfind : _find (fun m => startswith v m.title) M with
    | none => rw [hfind] at hm; simp at hm
    | some m' =>
      rw [hfind] at hm
      simp at hm
      subst hm
      exact find_eq_some_spec hfind
  · intro hall
    unfold _get_milestone
    rw [find_eq_none_spec hall]

/-- Witness for C1 at the spec's example: version `"2.1.3"` with milestones
titled `"2.0"`, `"2.1"` resolves to `"2.1"`, and a version matching no
milestone fails. -/
theorem milestone_resolution_first_match_witness :
    (startswith "2.1.3" (Milestone.mk "2.1" 2).title = true ∧
      ∃ l₁ l₂, [Milestone.mk "2.0" 1, Milestone.mk "2.1" 2] =
          l₁ ++ (Milestone.mk "2.1" 2) :: l₂ ∧
        ∀ m' ∈ l₁, startswith "2.1.3" m'.title = false) ∧
    _get_milestone "3.0" [Milestone.mk "2.0" 1, Milestone.mk "2.1" 2] =
      Except.error ("Unable to find milestone: " ++ "3.0") :=
  ⟨(milestone_resolution_first_match "2.1.3"
      [Milestone.mk "2.0" 1, Milestone.mk "2.1" 2]).1 (Milestone.mk "2.1" 2) rfl,
   (milestone_resolution_first_match "3.0"
      [Milestone.mk "2.0" 1, Milestone.mk "2.1" 2]).2 (by decide)⟩

/-- Claim C2 counterexample: resolving the same encrypted source path twice
from a fresh process re-invokes `gpg` (two invocations, not one) and returns
two different temporary-file paths — there is no cache by source path. -/
theorem decrypt_no_cache_counterexample :
    get_decrypted_key_path true "github.token.gpg" dec_init =
      Except.ok ("/tmp/tmp0", DecState.mk [0] 1 1) ∧
    get_decrypted_key_path true "github.token.gpg" (DecState.mk [0] 1 1) =
      Except.ok ("/tmp/tmp1", DecState.mk [0, 1] 2 2) ∧
    ("/tmp/tmp0" : String) ≠ "/tmp/tmp1" ∧
    (DecState.mk [0, 1] 2 2).gpg_calls = 2 :=
  ⟨rfl, rfl, by decide, rfl⟩

/-- Claim C2 amended: for an encrypted source path, every resolution invokes
the decryption tool again and returns the path of a fresh temporary file
(with a new id); only the open handles are retained, no result is cached by
source path. -/
theorem decrypt_reinvokes_each_call (path : String) (s : DecState)
    (h : endswith path ".gpg" = true) :
    ∃ s₁ s₂ : DecState,
      get_decrypted_key_path true path s = Except.ok (temp_name s.next_fd, s₁) ∧
      get_decrypted_key_path true path s₁ = Except.ok (temp_name s₁.next_fd, s₂) ∧
      s₁.next_fd = s.next_fd + 1 ∧ s.next_fd ≠ s₁.next_fd ∧
      s₁.gpg_calls = s.gpg_calls + 1 ∧ s₂.gpg_calls = s.gpg_calls + 2 := by
  refine ⟨⟨s.tempfiles ++ [s.next_fd], s.next_fd + 1, s.gpg_calls + 1⟩,
    ⟨(s.tempfiles ++ [s.next_fd]) ++ [s.next_fd + 1], s.next_fd + 2, s.gpg_calls + 2⟩,
    ?_, ?_, rfl, by show s.next_fd ≠ s.next_fd + 1; omega, rfl, rfl⟩
  · simp [get_decrypted_key_path, h]
  · simp [get_decrypted_key_path, h]

/-- Witness for the amended C2 at the concrete path `"github.token.gpg"`. -/
theorem decrypt_reinvokes_each_call_witness :
    endswith "github.token.gpg" ".gpg" = true ∧
    ∃ s₁ s₂ : DecState,
      get_decrypted_key_path true "github.token.gpg" dec_init =
        Except.ok (temp_name dec_init.next_fd, s₁) ∧
      get_decrypted_key_path true "github.token.gpg" s₁ =
        Except.ok (temp_name s₁.next_fd, s₂) ∧
      s₁.next_fd = dec_init.next_fd + 1 ∧ dec_init.next_fd ≠ s₁.next_fd ∧
      s₁.gpg_calls = dec_init.gpg_calls + 1 ∧ s₂.gpg_calls = dec_init.gpg_calls + 2 :=
  ⟨by decide, decrypt_reinvokes_each_call "github.token.gpg" dec_init (by decide)⟩

/-- Claim C3 counterexample: with the signing tool exiting non-zero and
producing empty output, the `appcast` task still renders the feed document
and that document carries an empty `sparkle:edSignature` attribute — the
stage neither checks the exit status (the `local` wrapper passes
`warn=True`) nor the signature. -/
theorem appcast_empty_signature_counterexample :
    py_strip (local_capture (CmdResult.mk 1 "")) = "" ∧
    contains_sub (appcast_feed (CmdResult.mk 1 "") appcast_run_example)
      "sparkle:edSignature=\"\"" = true :=
  ⟨rfl, by decide⟩

/-- Claim C3 amended: the feed-generation stage performs no validation of
the signing invocation: whatever the exit status, whenever the trimmed
standard output is empty the update feed is still produced, with an empty
signature attribute. -/
theorem appcast_empty_signature_still_written (r : CmdResult)
    (h : py_strip r.stdout = "") :
    contains_sub (appcast_feed r appcast_run_example) "sparkle:edSignature=\"\"" = true := by
  have hfeed : appcast_feed r appcast_run_example =
      pystache_render appcast_template (appcast_data appcast_run_example "") := by
    simp [appcast_feed, local_capture, h]
  rw [hfeed]
  decide

/-- Witness for the amended C3: a zero-exit signing run whose output is only
whitespace still yields a feed with an empty signature attribute. -/
theorem appcast_empty_signature_still_written_witness :
    py_strip " \n" = "" ∧
    contains_sub (appcast_feed (CmdResult.mk 0 " \n") appcast_run_example)
      "sparkle:edSignature=\"\"" = true :=
  ⟨by decide, appcast_empty_signature_still_written (CmdResult.mk 0 " \n") (by decide)⟩

/-- Claim C4: the closed-issue sequence produced by `_gen_release_notes` is
sorted ascending by closed timestamp, and issues with equal timestamps keep
their original fetch order (for every timestamp, filtering the output at
that timestamp gives exactly the input's issues with it, in input order). -/
theorem closed_issues_sorted_ascending_stable (fetched : List Issue) :
    (closed_issues_sorted fetched).Pairwise (fun a b => a.closed_at ≤ b.closed_at) ∧
    ∀ t : Nat,
      (closed_issues_sorted fetched).filter (fun i => i.closed_at == t) =
        fetched.filter (fun i => i.closed_at == t) :=
  ⟨sorted_py_sort _ fetched, fun t => filter_py_sort _ fetched t⟩

/-- Claim C5: archive name and download URL are pure functions of project
name and version with the fixed convention `{name}-{version}.zip` and
`{base}/version-{version}/{archive}`; at `name="ShiftIt"`,
`version="2.1.3"` they are `"ShiftIt-2.1.3.zip"` and a URL ending in
`"/version-2.1.3/ShiftIt-2.1.3.zip"`. -/
theorem archive_naming_convention :
    (∀ pn pv, proj_archive_name pn pv = pn ++ "-" ++ pv ++ ".zip" ∧
      proj_download_url pn pv =
        "https://github.com/citadelgrad/ShiftIt/releases/download" ++ "/version-" ++ pv
          ++ "/" ++ (pn ++ "-" ++ pv ++ ".zip")) ∧
    proj_archive_name proj_name "2.1.3" = "ShiftIt-2.1.3.zip" ∧
    proj_download_url proj_name "2.1.3" =
      "https://github.com/citadelgrad/ShiftIt/releases/download/version-2.1.3/ShiftIt-2.1.3.zip" ∧
    endswith (proj_download_url proj_name "2.1.3")
      ("/version-2.1.3/" ++ proj_archive_name proj_name "2.1.3") = true :=
  ⟨fun pn pv => ⟨rfl, rfl⟩, by decide, by decide, by decide⟩

/-- Claim C6: with zero closed issues the aggregation yields the empty
sequence (no error), the context's `has_issues` flag is `false`, the
rendered HTML release notes coincide with the render of the template whose
`has_issues` section is omitted entirely, and on concrete inputs the output
contains no `"Issues closed"` heading. -/
theorem empty_milestone_release_notes (pv : String) (mn : Nat) :
    closed_issues_sorted [] = [] ∧
    ctx_lookup (release_notes_data pv mn []) "has_issues" = some (MVal.b false) ∧
    _gen_release_notes release_notes_template_html pv mn [] =
      render [release_notes_data pv mn []] release_notes_template_html_sans_issues ∧
    contains_sub (_gen_release_notes release_notes_template_html "2.1.3" 1 [])
      "Issues closed" = false := by
  refine ⟨rfl, rfl, ?_, by decide⟩
  simp [_gen_release_notes, pystache_render, release_notes_data, closed_issues_sorted,
    py_sort, release_notes_template_html, release_notes_template_html_sans_issues, tseq,
    render, stack_lookup, ctx_lookup]

/-- Claim C7 (code bug): the pending-changes check is inverted.  The warning
`"there are pending changes in the repository"` is printed exactly when
`git diff-index --quiet HEAD --` exits 0 (a clean tree) and is omitted when
it exits non-zero (uncommitted changes present) — the opposite of the
claimed condition.  Either way the task continues (advisory only). -/
theorem release_pending_warning_inverted :
    release_warns_pending_changes 1 = false ∧
    release_warns_pending_changes 0 = true ∧
    release_preflight 1 [] = [] ∧
    release_preflight 0 [] =
      ["Warning: there are pending changes in the repository. Run git status"] := by
  decide

/-- Claim C8: a path without the `.gpg` suffix is returned unchanged with no
state change — the decryption tool is not invoked even when it is absent —
and the `NotImplementedError` of the missing tool surfaces only when
decryption of an encrypted path is actually requested. -/
theorem plaintext_path_passthrough (path : String) (s : DecState) :
    (endswith path ".gpg" = false →
      ∀ g : Bool, get_decrypted_key_path g path s = Except.ok (path, s)) ∧
    (endswith path ".gpg" = true →
      get_decrypted_key_path false path s = Except.error gpg_unavailable_msg) := by
  constructor
  · intro h g
    simp [get_decrypted_key_path, h]
  · intro h
    simp [get_decrypted_key_path, h]

/-- Witness for C8: a plaintext token path passes through untouched with the
tool absent, and an encrypted path with the tool absent raises. -/
theorem plaintext_path_passthrough_witness :
    endswith "/Users/u/Keys/ShiftIt/github.token" ".gpg" = false ∧
    get_decrypted_key_path false "/Users/u/Keys/ShiftIt/github.token" dec_init =
      Except.ok ("/Users/u/Keys/ShiftIt/github.token", dec_init) ∧
    endswith "github.token.gpg" ".gpg" = true ∧
    get_decrypted_key_path false "github.token.gpg" dec_init =
      Except.error gpg_unavailable_msg :=
  ⟨by decide,
   (plaintext_path_passthrough "/Users/u/Keys/ShiftIt/github.token" dec_init).1 (by decide) false,
   by decide,
   (plaintext_path_passthrough "github.token.gpg" dec_init).2 (by decide)⟩

/-- Claim C9: rendering is pure and deterministic for the three templates
the script uses — rendering the same template with the same context twice
yields identical output text. -/
theorem rendering_deterministic (c c' : Ctx) (h : c = c') :
    pystache_render release_notes_template_html c =
      pystache_render release_notes_template_html c' ∧
    pystache_render release_notes_template_md c =
      pystache_render release_notes_template_md c' ∧
    pystache_render appcast_template c = pystache_render appcast_template c' := by
  subst h
  exact ⟨rfl, rfl, rfl⟩

/-- Witness for C9 at a concrete context. -/
theorem rendering_deterministic_witness :
    ([("proj_name", MVal.s "ShiftIt")] : Ctx) = [("proj_name", MVal.s "ShiftIt")] ∧
    pystache_render release_notes_template_html [("proj_name", MVal.s "ShiftIt")] =
      pystache_render release_notes_template_html [("proj_name", MVal.s "ShiftIt")] :=
  ⟨rfl, (rendering_deterministic [("proj_name", MVal.s "ShiftIt")]
    [("proj_name", MVal.s "ShiftIt")] rfl).1⟩

/-- Claim C10: `info` prints one line per module-level `proj_`-prefixed
binding, and in particular the line `github_token: …` carrying the plaintext
release-automation token appears in its output. -/
theorem info_prints_github_token
    (user repo token_file sign_tool cwd version token : String) :
    (∀ kv ∈ module_globals user repo token_file sign_tool cwd version token,
      startswith kv.1 "proj_" = true →
      ("\t" ++ string_drop kv.1 5 ++ ": " ++ kv.2) ∈
        info_lines (module_globals user repo token_file sign_tool cwd version token)) ∧
    ("\tgithub_token: " ++ token) ∈
      info_lines (module_globals user repo token_file sign_tool cwd version token) := by
  have base : ∀ (g : List (String × String)) kv, kv ∈ g →
      startswith kv.1 "proj_" = true →
      ("\t" ++ string_drop kv.1 5 ++ ": " ++ kv.2) ∈ info_lines g := by
    intro g kv hmem hpre
    exact List.mem_map_of_mem _ (List.mem_filter.mpr ⟨hmem, hpre⟩)
  refine ⟨fun kv hm hp => base _ kv hm hp, ?_⟩
  have h := base (module_globals user repo token_file sign_tool cwd version token)
    ("proj_github_token", token) (by simp [module_globals])
    (by show startswith "proj_github_token" "proj_" = true; decide)
  have h' : ("\t" ++ string_drop "proj_github_token" 5 ++ ": " ++ token) ∈
      info_lines (module_globals user repo token_file sign_tool cwd version token) := h
  have he : ("\t" ++ string_drop "proj_github_token" 5) ++ ": " = "\tgithub_token: " := by
    decide
  rw [he] at h'
  exact h'

/-- Witness for C10 at concrete configuration values. -/
theorem info_prints_github_token_witness :
    ("proj_github_token", "tok123") ∈
      module_globals "u" "r" "tf" "st" "/w" "2.1.3" "tok123" ∧
    startswith "proj_github_token" "proj_" = true ∧
    ("\t" ++ string_drop ("proj_github_token", "tok123").1 5 ++ ": "
        ++ ("proj_github_token", "tok123").2) ∈
      info_lines (module_globals "u" "r" "tf" "st" "/w" "2.1.3" "tok123") :=
  ⟨by decide, by decide,
   (info_prints_github_token "u" "r" "tf" "st" "/w" "2.1.3" "tok123").1
     ("proj_github_token", "tok123") (by decide) (by decide)⟩

end ShiftIt
